import Mathlib

/-!
Verification of the ASOS scraper (`src/fashion_scraper/asos/scraper.py`) against its
natural-language specification.  The Python code is shallowly embedded: the browser
session / DOM is modelled as an abstract page structure exposing exactly the queries the
code performs, pure string manipulation is translated to executable Lean functions, and
Python dicts become insertion-ordered association lists.  Logging and debug-file writes
are modelled as explicit output lists, since several spec sentences talk about them.
-/

namespace FashionScraper

/-! ## String primitives modelling the Python built-ins used by the scraper -/

/-- Boolean test that `pat` is a prefix of `l`, modelling the prefix part of Python's
substring search.  Mirrors `List.isPrefixOf` but kept local so every proof is
self-contained. -/
def prefixBool : List Char → List Char → Bool
  | [], _ => true
  | _ :: _, [] => false
  | a :: as, b :: bs => a == b && prefixBool as bs

/-- Boolean substring test on character lists: `pat` occurs contiguously in `l`.
Models Python's `pat in s`. -/
def infixBool (pat : List Char) : List Char → Bool
  | [] => pat.isEmpty
  | l@(_ :: rest) => prefixBool pat l || infixBool pat rest

/-- Python `pat in s` (substring containment). -/
def strContains (s pat : String) : Bool := infixBool pat.data s.data

/-- Python `s.startswith(pat)`. -/
def strStartsWith (s pat : String) : Bool := prefixBool pat.data s.data

/-- Python `s.lower()` (restricted to the ASCII case mapping of `Char.toLower`,
which covers every challenge phrase the code checks). -/
def pyLower (s : String) : String := ⟨s.data.map Char.toLower⟩

/-- Python `s.strip()` with no argument: remove leading and trailing whitespace. -/
def pyStrip (s : String) : String :=
  ⟨((s.data.dropWhile Char.isWhitespace).reverse.dropWhile Char.isWhitespace).reverse⟩

/-- Python `s.strip(chars)`: remove leading and trailing characters drawn from `cs`. -/
def pyStripChars (cs : String) (s : String) : String :=
  ⟨((s.data.dropWhile (cs.data.contains ·)).reverse.dropWhile (cs.data.contains ·)).reverse⟩

/-- Python `s.replace(c, '')` for a one-character pattern: drop every occurrence of `c`.
The scraper only ever replaces the single characters `'£'` and `','` by the empty
string. -/
def removeChar (c : Char) (s : String) : String := ⟨s.data.filter (· ≠ c)⟩

/-- Helper for `pyRemoveSub`: fuel-indexed structural recursion that deletes every
occurrence of `pat` (nonempty) from the character list. -/
def removeSubAux (pat : List Char) : Nat → List Char → List Char
  | _, [] => []
  | 0, l => l
  | fuel + 1, l@(c :: rest) =>
      if prefixBool pat l && !pat.isEmpty then removeSubAux pat fuel (l.drop pat.length)
      else c :: removeSubAux pat fuel rest

/-- Python `s.replace(pat, '')` for a multi-character pattern (used for
`'... Read More'` and `'Read More'`). -/
def pyRemoveSub (s pat : String) : String := ⟨removeSubAux pat.data s.data.length s.data⟩

/-- Helper for `pySplitOn`: fuel-indexed split of a character list on a nonempty
separator. -/
def splitOnAux (sep : List Char) : Nat → List Char → List Char → List (List Char)
  | _, cur, [] => [cur.reverse]
  | 0, cur, l => [cur.reverse ++ l]
  | fuel + 1, cur, l@(c :: rest) =>
      if prefixBool sep l && !sep.isEmpty then
        cur.reverse :: splitOnAux sep fuel [] (l.drop sep.length)
      else splitOnAux sep fuel (c :: cur) rest

/-- Python `s.split(sep)` for a nonempty literal separator. -/
def pySplitOn (s sep : String) : List String :=
  (splitOnAux sep.data s.data.length [] s.data).map List.asString

/-- Helper for `pySplitWs`: split on runs of whitespace, discarding empty pieces,
carrying the current word reversed. -/
def wordsAux (cur : List Char) : List Char → List String
  | [] => if cur.isEmpty then [] else [⟨cur.reverse⟩]
  | c :: rest =>
      if c.isWhitespace then
        if cur.isEmpty then wordsAux [] rest else ⟨cur.reverse⟩ :: wordsAux [] rest
      else wordsAux (c :: cur) rest

/-- Python `s.split()` with no argument: split on whitespace runs, no empty pieces. -/
def pySplitWs (s : String) : List String := wordsAux [] s.data

/-- Value of a digit list read in base 10. -/
def digitsToNat (l : List Char) : Nat := l.foldl (fun a c => a * 10 + (c.toNat - 48)) 0

/-- Python `int(s)`: optional surrounding whitespace, optional sign, then decimal
digits.  Returns `none` where CPython raises `ValueError`. -/
def pyInt (s : String) : Option Int :=
  let t := (pyStrip s).data
  let core : List Char → Option Nat := fun ds =>
    if !ds.isEmpty && ds.all Char.isDigit then some (digitsToNat ds) else none
  match t with
  | '-' :: rest => (core rest).map (fun n => -(n : Int))
  | '+' :: rest => (core rest).map (fun n => (n : Int))
  | rest => (core rest).map (fun n => (n : Int))

/-- Python `float(s)` restricted to plain decimal literals (optional sign, digits,
at most one dot, at least one digit), which covers every price / rating string the
scraper feeds it.  Exponents, `inf` and `nan` are not modelled; they do not occur in
the scraped fields.  Returns the exact rational value; `85.00` and `1234.50` are
exactly representable so no floating-point rounding is involved. -/
def pyFloat (s : String) : Option ℚ :=
  let t := (pyStrip s).data
  let core : List Char → Option ℚ := fun body =>
    let ip := body.takeWhile Char.isDigit
    let rest := body.dropWhile Char.isDigit
    match rest with
    | [] => if ip.isEmpty then none else some ((digitsToNat ip : ℚ))
    | '.' :: fp =>
        if fp.all Char.isDigit && !(ip.isEmpty && fp.isEmpty) then
          some ((digitsToNat ip : ℚ) + (digitsToNat fp : ℚ) / (10 : ℚ) ^ fp.length)
        else none
    | _ => none
  match t with
  | '-' :: rest => (core rest).map (fun q => -q)
  | '+' :: rest => core rest
  | rest => core rest

/-! ### Lemmas about the string primitives -/

theorem prefixBool_append {pat a : List Char} (b : List Char)
    (h : prefixBool pat a = true) : prefixBool pat (a ++ b) = true := by
  induction pat generalizing a with
  | nil => simp [prefixBool]
  | cons p ps ih =>
      cases a with
      | nil => simp [prefixBool] at h
      | cons x xs =>
          simp only [prefixBool, Bool.and_eq_true] at h
          simpa [prefixBool, h.1] using ih h.2

theorem infixBool_of_prefixBool {pat l : List Char}
    (h : prefixBool pat l = true) : infixBool pat l = true := by
  cases l with
  | nil =>
      cases pat with
      | nil => simp [infixBool]
      | cons p ps => simp [prefixBool] at h
  | cons c rest => simp [infixBool, h]

theorem infixBool_append_left {pat a : List Char} (b : List Char)
    (h : infixBool pat a = true) : infixBool pat (a ++ b) = true := by
  induction a with
  | nil =>
      simp only [infixBool, List.isEmpty_iff] at h
      subst h
      exact infixBool_of_prefixBool (by simp [prefixBool])
  | cons c rest ih =>
      simp only [infixBool, Bool.or_eq_true] at h
      rcases h with h | h
      · simpa [infixBool] using Or.inl (prefixBool_append b h)
      · simpa [infixBool] using Or.inr (ih h)

theorem infixBool_append_right {pat : List Char} (a : List Char) {b : List Char}
    (h : infixBool pat b = true) : infixBool pat (a ++ b) = true := by
  induction a with
  | nil => simpa using h
  | cons c rest ih => simpa [infixBool] using Or.inr ih

theorem strContains_append_left {a pat : String} (b : String)
    (h : strContains a pat = true) : strContains (a ++ b) pat = true := by
  simpa [strContains, String.data_append] using infixBool_append_left b.data h

theorem strContains_append_right (a : String) {b pat : String}
    (h : strContains b pat = true) : strContains (a ++ b) pat = true := by
  simpa [strContains, String.data_append] using infixBool_append_right a.data h

theorem strContains_of_startsWith {s pat : String}
    (h : strStartsWith s pat = true) : strContains s pat = true :=
  infixBool_of_prefixBool h

/-! ## Python dict model

Python dicts preserve the key order of first insertion; assigning to an existing key
overwrites its value in place.  The scraper's product record is such a dict, with
JSON-like values. -/

/-- JSON-like values stored in a scraped record. -/
inductive JVal where
  | null
  | s (v : String)
  | num (v : ℚ)
  | int (v : Int)
  | list (vs : List JVal)
  | obj (fields : List (String × JVal))

/-- A Python dict with string keys, as an insertion-ordered association list. -/
abbrev Dict := List (String × JVal)

/-- Python `d[k] = v`: overwrite in place if `k` is already present, otherwise append. -/
def dictInsert (d : Dict) (k : String) (v : JVal) : Dict :=
  if d.any (fun p => p.1 = k) then
    d.map (fun p => if p.1 = k then (k, v) else p)
  else d ++ [(k, v)]

/-- Python `k in d`. -/
def dictHas (d : Dict) (k : String) : Bool := d.any (fun p => p.1 = k)

/-- Python `d.get(k)` / `d[k]` lookup. -/
def dictGet (d : Dict) (k : String) : Option JVal :=
  (d.find? (fun p => p.1 = k)).map Prod.snd

theorem dictGet_insert_self (d : Dict) (k : String) (v : JVal) :
    dictGet (dictInsert d k v) k = some v := by
  unfold dictInsert dictGet
  by_cases h : d.any (fun p => p.1 = k)
  · simp only [h, if_pos]
    induction d with
    | nil => simp at h
    | cons p rest ih =>
        by_cases hp : p.1 = k
        · simp [List.find?, hp]
        · simp only [List.any_cons, Bool.or_eq_true, decide_eq_true_eq] at h
          rcases h with h | h
          · exact absurd h hp
          · simpa [List.find?, hp] using ih (by simpa using h)
  · simp only [h, if_neg, Bool.false_eq_true, not_false_iff]
    induction d with
    | nil => simp [List.find?]
    | cons p rest ih =>
        simp only [List.any_cons, Bool.or_eq_true, decide_eq_true_eq] at h
        push_neg at h
        simpa [List.find?, h.1] using ih (by simpa using h.2)

theorem find_map_overwrite {k k' : String} (v : JVal) (h : k ≠ k') (d : Dict) :
    List.find? (fun p => p.1 = k') (d.map (fun p => if p.1 = k then (k, v) else p)) =
      List.find? (fun p => p.1 = k') d := by
  induction d with
  | nil => rfl
  | cons p rest ih =>
      by_cases hp : p.1 = k
      · have h1 : ¬ (k = k') := h
        simp [List.find?, hp, h1, hp ▸ h1, ih]
      · by_cases hp' : p.1 = k'
        · simp only [List.map_cons]
          rw [if_neg hp]
          simp [List.find?, hp']
        · simp [List.find?, hp, hp', ih]

theorem dictGet_insert_ne (d : Dict) {k k' : String} (v : JVal) (h : k ≠ k') :
    dictGet (dictInsert d k v) k' = dictGet d k' := by
  unfold dictInsert dictGet
  by_cases ha : d.any (fun p => p.1 = k)
  · simp [ha, find_map_overwrite v h d]
  · simp only [ha, if_neg, Bool.false_eq_true, not_false_iff]
    rw [List.find?_append]
    have h1 : ¬ (k = k') := h
    cases hf : List.find? (fun p => p.1 = k') d with
    | none => simp [hf, List.find?, h1]
    | some q => simp [hf]

theorem dictHas_iff_get (d : Dict) (k : String) :
    dictHas d k = true ↔ ∃ v, dictGet d k = some v := by
  unfold dictHas dictGet
  induction d with
  | nil => simp [List.find?]
  | cons p rest ih =>
      by_cases hp : p.1 = k
      · simp [List.find?, hp]
      · simpa [List.find?, hp] using ih

theorem dictHas_insert_self (d : Dict) (k : String) (v : JVal) :
    dictHas (dictInsert d k v) k = true :=
  (dictHas_iff_get _ _).2 ⟨v, dictGet_insert_self d k v⟩

/-! ## LinkCollector: `AsosScraper.get_product_links`

The browser session during one `get_product_links` call is abstracted to the queries
the code performs: the URL Selenium reports after navigation, the elements each CSS
selector matches (with their `href` attributes), the anchors BeautifulSoup finds in the
static page source, and the raw page source itself. -/

/-- Abstract state of the loaded category page.
`findLinks sel` models `driver.find_elements(By.CSS_SELECTOR, sel)`: `none` means the
lookup raised (caught and skipped by the code), `some elems` the matched elements, and
for each element `none` models a missing `href` attribute or a raise inside
`get_attribute` (both skip the element). -/
structure CategoryPage where
  currentUrl : String
  findLinks : String → Option (List (Option String))
  staticAnchors : List String
  pageSource : String

/-- The twelve CSS selectors tried in order by `get_product_links`
(scraper.py lines 146-159). -/
def linkSelectors : List String :=
  ["a[href*=\"/prd/\"]",
   "a[href*=\"asos.com\"][href*=\"/prd/\"]",
   "a[class*=\"productLink\"]",
   "a[data-testid*=\"product\"]",
   "a[data-auto-id*=\"product\"]",
   "a[href*=\"product\"]",
   "a[class*=\"product\"]",
   "a[data-testid=\"product-link\"]",
   "a[data-auto-id=\"product-link\"]",
   "a[class*=\"product-card\"]",
   "a[class*=\"product-tile\"]",
   "a[class*=\"product-item\"]"]

/-- Valid product links harvested by one selector (scraper.py lines 161-175): the
hrefs of the matched elements that contain both `'asos.com'` and `'/prd/'`; a raised
selector lookup yields nothing. -/
def collectFromSelector (page : CategoryPage) (sel : String) : List String :=
  match page.findLinks sel with
  | none => []
  | some elems =>
      (elems.filterMap id).filter
        (fun href => strContains href "asos.com" && strContains href "/prd/")

/-- The selector cascade (scraper.py lines 161-180): selectors are tried in declared
order and the loop breaks at the first selector whose harvested product links are
non-empty; a selector that raises, or harvests no valid link, is skipped. -/
def cascadeFirst (page : CategoryPage) : List String → List String
  | [] => []
  | sel :: rest =>
      let r := collectFromSelector page sel
      if r.isEmpty then cascadeFirst page rest else r

/-- Product links found through the Selenium selector cascade. -/
def seleniumLinks (page : CategoryPage) : List String := cascadeFirst page linkSelectors

/-- Per-anchor logic of the BeautifulSoup fallback (scraper.py lines 192-197):
absolute hrefs containing `'asos.com'` and `'/prd/'` are kept verbatim; otherwise
hrefs starting with `'/prd/'` are prefixed with the base origin; all others are
dropped. -/
def anchorRewrite (href : String) : Option String :=
  if strContains href "asos.com" && strContains href "/prd/" then some href
  else if strStartsWith href "/prd/" then some ("https://www.asos.com" ++ href)
  else none

/-- The BeautifulSoup static-markup fallback over all anchors of the page source. -/
def soupFallbackLinks (anchors : List String) : List String :=
  anchors.filterMap anchorRewrite

/-- Order-preserving de-duplication, modelling `list(dict.fromkeys(product_links))`
(scraper.py line 223). -/
def dedupKeepFirst : List String → List String :=
  go []
where
  /-- keeps the first occurrence of each element, tracking what has been seen -/
  go (seen : List String) : List String → List String
    | [] => []
    | x :: xs => if x ∈ seen then go seen xs else x :: go (x :: seen) xs

/-- Failure modes of one `get_product_links` attempt. -/
inductive LinkError where
  | redirected
  | noProducts
deriving DecidableEq

/-- Result of one attempt together with the debug artifacts it wrote. -/
structure LinkResult where
  result : Except LinkError (List String)
  debugArtifacts : List String

/-- One attempt of `get_product_links` (scraper.py lines 116-225, without the retry
decorator): check the post-navigation URL for an off-domain redirect, run the selector
cascade, de-duplicate on the main path; if the cascade found nothing, write the page
source as a debug artifact and fall back to static-markup parsing, returning its links
(without de-duplication) or failing with a "no products" error. -/
def getProductLinksOnce (page : CategoryPage) : LinkResult :=
  if strContains page.currentUrl "asos.com" = false then
    ⟨.error .redirected, []⟩
  else if (seleniumLinks page).isEmpty then
    if (soupFallbackLinks page.staticAnchors).isEmpty then
      ⟨.error .noProducts, [page.pageSource]⟩
    else ⟨.ok (soupFallbackLinks page.staticAnchors), [page.pageSource]⟩
  else ⟨.ok (dedupKeepFirst (seleniumLinks page)), []⟩

/-! ## RetryPolicy: the tenacity decorator on `get_product_links`

`@retry(stop=stop_after_attempt(3), wait=wait_exponential(multiplier=1, min=4, max=10))`
retries on any raised exception, sleeping `max(max(0, min), min(multiplier * 2 ** n, max))`
seconds after failed attempt `n`, and re-raises after the third failed attempt. -/

/-- tenacity's `wait_exponential(multiplier, min, max)` delay after attempt
`attemptNumber`. -/
def waitExponential (multiplier minW maxW : ℚ) (attemptNumber : Nat) : ℚ :=
  max (max 0 minW) (min (multiplier * 2 ^ attemptNumber) maxW)

/-- Trace of a retried operation: final outcome, number of attempts made, and the
delays slept between consecutive attempts. -/
structure RetryTrace (ε α : Type) where
  result : Except ε α
  attempts : Nat
  delays : List ℚ

/-- Generic bounded-retry loop: attempt number `n`, `fuel` attempts remaining
(including the current one).  On failure with attempts remaining, sleep `w n` and
retry; on failure of the last attempt, surface the error. -/
def retryGo (op : Nat → Except ε α) (w : Nat → ℚ) : Nat → Nat → RetryTrace ε α
  | n, 0 => ⟨op n, 1, []⟩
  | n, 1 => ⟨op n, 1, []⟩
  | n, fuel + 2 =>
      match op n with
      | .ok a => ⟨.ok a, 1, []⟩
      | .error _ =>
          let t := retryGo op w (n + 1) (fuel + 1)
          ⟨t.result, t.attempts + 1, w n :: t.delays⟩

/-- The function `get_product_links` as actually called: the single-attempt body wrapped in the
tenacity retry policy (at most 3 attempts, exponential wait with multiplier 1,
floor 4, ceiling 10).  `pages n` is the category-page state the browser observes on
attempt `n`. -/
def getProductLinksRetried (pages : Nat → CategoryPage) : RetryTrace LinkError (List String) :=
  retryGo (fun n => (getProductLinksOnce (pages n)).result) (waitExponential 1 4 10) 1 3

/-! ### Lemmas about de-duplication and the cascade -/

theorem dedup_go_mem (seen : List String) (l : List String) (x : String) :
    x ∈ dedupKeepFirst.go seen l ↔ x ∈ l ∧ x ∉ seen := by
  induction l generalizing seen with
  | nil => simp [dedupKeepFirst.go]
  | cons y ys ih =>
      by_cases hy : y ∈ seen
      · simp only [dedupKeepFirst.go, if_pos hy, ih, List.mem_cons]
        constructor
        · rintro ⟨h1, h2⟩
          exact ⟨Or.inr h1, h2⟩
        · rintro ⟨rfl | h1, h2⟩
          · exact absurd hy h2
          · exact ⟨h1, h2⟩
      · simp only [dedupKeepFirst.go, if_neg hy, List.mem_cons, ih]
        constructor
        · rintro (rfl | ⟨h1, h2⟩)
          · exact ⟨Or.inl rfl, hy⟩
          · exact ⟨Or.inr h1, fun hx => h2 (Or.inr hx)⟩
        · rintro ⟨rfl | h1, h2⟩
          · exact Or.inl rfl
          · by_cases hxy : x = y
            · exact Or.inl hxy
            · refine Or.inr ⟨h1, fun hx => ?_⟩
              rcases hx with h | h
              · exact hxy h
              · exact h2 h

theorem dedup_go_nodup (seen : List String) (l : List String) :
    (dedupKeepFirst.go seen l).Nodup := by
  induction l generalizing seen with
  | nil => simp [dedupKeepFirst.go]
  | cons y ys ih =>
      by_cases hy : y ∈ seen
      · simpa [dedupKeepFirst.go, if_pos hy] using ih seen
      · simp only [dedupKeepFirst.go, if_neg hy, List.nodup_cons]
        refine ⟨fun hmem => ?_, ih _⟩
        exact ((dedup_go_mem _ _ _).1 hmem).2 (List.mem_cons_self _ _)

theorem dedup_go_sublist (seen : List String) (l : List String) :
    (dedupKeepFirst.go seen l).Sublist l := by
  induction l generalizing seen with
  | nil => simp [dedupKeepFirst.go]
  | cons y ys ih =>
      by_cases hy : y ∈ seen
      · simpa [dedupKeepFirst.go, if_pos hy] using (ih seen).cons y
      · simpa [dedupKeepFirst.go, if_neg hy] using (ih (y :: seen)).cons₂ y

theorem dedupKeepFirst_mem (l : List String) (x : String) :
    x ∈ dedupKeepFirst l ↔ x ∈ l := by
  simpa [dedupKeepFirst] using dedup_go_mem [] l x

theorem dedupKeepFirst_nodup (l : List String) : (dedupKeepFirst l).Nodup :=
  dedup_go_nodup [] l

theorem dedupKeepFirst_sublist (l : List String) : (dedupKeepFirst l).Sublist l :=
  dedup_go_sublist [] l

theorem dedupKeepFirst_ne_nil {l : List String} (h : l ≠ []) :
    dedupKeepFirst l ≠ [] := by
  cases l with
  | nil => exact absurd rfl h
  | cons x xs =>
      intro hcontra
      have : x ∈ dedupKeepFirst (x :: xs) :=
        (dedupKeepFirst_mem _ _).2 (List.mem_cons_self _ _)
      rw [hcontra] at this
      exact List.not_mem_nil _ this

theorem collectFromSelector_mem {page : CategoryPage} {sel u : String}
    (h : u ∈ collectFromSelector page sel) :
    strContains u "asos.com" = true ∧ strContains u "/prd/" = true := by
  unfold collectFromSelector at h
  cases hf : page.findLinks sel with
  | none => rw [hf] at h; simp at h
  | some elems =>
      rw [hf] at h
      have := List.of_mem_filter h
      simpa [Bool.and_eq_true] using this

theorem cascadeFirst_mem {page : CategoryPage} {u : String} :
    ∀ {sels : List String}, u ∈ cascadeFirst page sels →
      ∃ sel ∈ sels, u ∈ collectFromSelector page sel := by
  intro sels
  induction sels with
  | nil => intro h; simp [cascadeFirst] at h
  | cons sel rest ih =>
      intro h
      by_cases he : (collectFromSelector page sel).isEmpty
      · rw [cascadeFirst, if_pos he] at h
        obtain ⟨s, hs, hu⟩ := ih h
        exact ⟨s, List.mem_cons_of_mem _ hs, hu⟩
      · rw [cascadeFirst, if_neg he] at h
        exact ⟨sel, List.mem_cons_self _ _, h⟩

/-! ## ProductExtractor: `AsosScraper.scrape_product`

The product page is abstracted to the DOM queries the code performs.  Each `Option`
models a `find` / `find_element` that may return nothing (or raise, where noted).
Text fields hold the node's raw text where the code calls `.strip()` itself, and the
already-stripped text where the code uses `get_text(strip=True)`. -/

/-- The `button[data-testid="reviewsReadMore"]` node of a review section:
its `aria-label` attribute (empty string models both absence and an empty value, as
in the code's `get('aria-label', '')` / truthiness test) and its visible text. -/
structure ReadMoreButton where
  ariaLabel : String
  text : String

/-- One review section (the recent-review `section[aria-label*=Review]`, or one
`section.x5rH4` of the expanded review list). -/
structure ReviewSection where
  ratingText : Option String
  dateText : Option String
  statusText : Option String
  titleText : Option String
  readMore : Option ReadMoreButton

/-- The `div.qKPxB` percentage node of a rating bar; `style` is its `style`
attribute, whose absence makes the code's `['style']` raise `KeyError` (caught). -/
structure BarDiv where
  style : Option String

/-- One `div[data-testid="ratingBar"]`. -/
structure RatingBar where
  qKPxB : Option BarDiv

/-- The BeautifulSoup `div[data-testid="reviews-and-product-rating"]` block. -/
structure ReviewsRating where
  overallText : Option String
  totalText : Option String

/-- The Selenium `div[data-testid="reviewsSection"]` block: text of its
overall-rating / total-reviews children (`none` models a raised `find_element`,
caught by the surrounding handler) and whether the "view all reviews" button became
clickable. -/
structure SelReviews where
  overallText : Option String
  totalText : Option String
  viewAllClickable : Bool

/-- The `a.Usg4d` anchor of a carousel card.  A missing `href` makes `a_tag['href']`
raise `KeyError` (caught only by the outer section handler). -/
structure CarouselAnchor where
  href : Option String
  ariaLabel : Option String
  title : String

/-- One `li` card of a "You Might Also Like" / "People Also Bought" carousel.
`imgSrc = some none` models an `img.gb1Ne` without a `src` attribute, on which
`img_tag['src']` raises `KeyError`. -/
structure CarouselItem where
  a : Option CarouselAnchor
  imgSrc : Option (Option String)
  priceText : Option String

/-- The `div.F_yfF` following the "Product Details" accordion title: the
(already stripped) texts of its `li` items and its own stripped text. -/
structure DetailsDiv where
  listItems : List String
  text : String

/-- One `img[class*=product-image]` with its three URL attributes, each read with
`get(..., '')`. -/
structure ProductImage where
  src : String
  dataSrc : String
  dataFull : String

/-- Abstract state of a loaded product page, exposing exactly the queries
`scrape_product` performs.  Queries issued after the "view all reviews" expansion
(`reviewSections` onward) refer to the re-parsed page source. -/
structure ProductPage where
  pageSource : String
  loadOk : Bool
  priceText : Option String
  h1Text : Option String
  brandAnchorText : Option String
  brandSection : Option (Option String)
  aboutSection : Option (Option String)
  savedDiv : Option (Option String)
  reviewsRating : Option ReviewsRating
  recommendText : Option String
  ratingBars : List RatingBar
  recentSection : Option ReviewSection
  selReviews : Option SelReviews
  reviewSections : List ReviewSection
  mightLike : Option (List CarouselItem)
  carousel : Option (List CarouselItem)
  descriptionText : Option String
  colorDiv : Option (Option String)
  detailsSection : Option (Option DetailsDiv)
  codeText : Option String
  images : List ProductImage

/-- Python exceptions that can escape an extraction step into the outer handlers. -/
inductive PyErr where
  | indexError
  | keyError
deriving DecidableEq

/-- Log events emitted by `scrape_product`, one constructor per logger call site,
carrying exactly the dynamic values the format string interpolates. -/
inductive LogEvent where
  | startScrape (url : String)
  | pageLoadWaitFailed
  | botDetectionTriggered
  | priceNotFound
  | overallRatingError
  | viewAllClickFailed
  | noReviewsSection
  | foundMightLike
  | mightLikeCount (n : Nat)
  | mightLikeMissing
  | mightLikeError
  | foundPeopleBought
  | peopleBoughtCount (n : Nat)
  | peopleBoughtMissing
  | peopleBoughtError
  | successScraped (name : String)
  | seleniumScrapingFailed
  | noDetailsError
  | errorScraping (url : String)
deriving DecidableEq

/-- Whether a log event carries the string `s` in one of its payloads
(substring containment, as surfacing a value in a message would). -/
def logMentions (e : LogEvent) (s : String) : Bool :=
  match e with
  | .startScrape u => strContains u s
  | .errorScraping u => strContains u s
  | .successScraped n => strContains n s
  | _ => false

/-- Bot-challenge detection (scraper.py line 245): the lower-cased page source
contains one of the known challenge phrases. -/
def botDetected (source : String) : Bool :=
  strContains (pyLower source) "unusual traffic" ||
    strContains (pyLower source) "verify you are human"

/-- Price parsing (scraper.py lines 259-264): strip whitespace, drop `'£'` and
`','`, then attempt float conversion; on `ValueError` keep the cleaned string. -/
def parsePrice (raw : String) : JVal :=
  let cleaned := removeChar ',' (removeChar '£' (pyStrip raw))
  match pyFloat cleaned with
  | some q => .num q
  | none => .s cleaned

/-- Price step (scraper.py lines 255-266): the key is set only when the price
element was found; a timeout/raise is caught and logged. -/
def priceStep (p : ProductPage) (d : Dict) : Dict :=
  match p.priceText with
  | none => d
  | some t => dictInsert d "price" (parsePrice t)

/-- Name step (line 270-272): `soup.find('h1')`. -/
def nameStep (p : ProductPage) (d : Dict) : Dict :=
  match p.h1Text with
  | none => d
  | some t => dictInsert d "name" (.s (pyStrip t))

/-- Brand step (line 274-276): anchor whose href contains `/brand/`. -/
def brandStep (p : ProductPage) (d : Dict) : Dict :=
  match p.brandAnchorText with
  | none => d
  | some t => dictInsert d "brand" (.s (pyStrip t))

/-- Brand-details step (lines 278-284): the key is always set, `null` when either
nested lookup missed. -/
def brandDetailsStep (p : ProductPage) (d : Dict) : Dict :=
  dictInsert d "brand_details"
    (match p.brandSection with
     | some (some t) => .s t
     | _ => .null)

/-- About-me step (lines 287-293). -/
def aboutStep (p : ProductPage) (d : Dict) : Dict :=
  dictInsert d "about_me"
    (match p.aboutSection with
     | some (some t) => .s t
     | _ => .null)

/-- Saved-items-count step (lines 296-305): `int` conversion failure degrades to
`null`; the key is always set. -/
def savedStep (p : ProductPage) (d : Dict) : Dict :=
  dictInsert d "saved_count"
    (match p.savedDiv with
     | some (some t) =>
         match pyInt (pyStrip t) with
         | some n => .int n
         | none => .null
     | _ => .null)

/-- Value of one rating bar (lines 341-356).  `none`: no `div.qKPxB`, no key set.
`some none`: caught `ValueError`/`KeyError`, key set to `null`.  `some (some n)`:
parsed percentage.  A style attribute without `':'` makes `split(':')[1]` raise
`IndexError`, which the surrounding `except (ValueError, KeyError)` does NOT catch. -/
def ratingBarVal (bar : RatingBar) : Except PyErr (Option (Option Int)) :=
  match bar.qKPxB with
  | none => .ok none
  | some bd =>
      match bd.style with
      | none => .ok (some none)
      | some st =>
          match pySplitOn st ":" with
          | _ :: second :: _ =>
              match pyInt (pyStripChars "%;" second) with
              | some n => .ok (some (some n))
              | none => .ok (some none)
          | _ => .error .indexError

/-- Insert one bar's rating under `key` according to `ratingBarVal`. -/
def barStep (rd : Dict) (key : String) (bar : RatingBar) : Except PyErr Dict :=
  match ratingBarVal bar with
  | .error e => .error e
  | .ok none => .ok rd
  | .ok (some none) => .ok (dictInsert rd key .null)
  | .ok (some (some n)) => .ok (dictInsert rd key (.int n))

/-- The `ratings_data` dict built inside the reviews-and-rating block
(lines 311-356). -/
def ratingsObj (p : ProductPage) (rr : ReviewsRating) : Except PyErr Dict :=
  let rd : Dict := []
  let rd := match rr.overallText with
    | none => rd
    | some t =>
        dictInsert rd "overall_rating"
          (match pyFloat (pyStrip t) with
           | some q => .num q
           | none => .null)
  let rd := match rr.totalText with
    | none => rd
    | some t =>
        dictInsert rd "total_reviews"
          (match (pySplitWs (pyStripChars "()" (pyStrip t))).head? with
           | none => .null
           | some w =>
               match pyInt w with
               | some n => .int n
               | none => .null)
  let rd := match p.recommendText with
    | none => rd
    | some t =>
        dictInsert rd "recommendation_percentage"
          (match pyInt ((pySplitOn (pyStrip t) "%").headD "") with
           | some n => .int n
           | none => .null)
  match p.ratingBars with
  | b0 :: b1 :: _ =>
      match barStep rd "fit_rating" b0 with
      | .error e => .error e
      | .ok rd =>
          match barStep rd "quality_rating" b1 with
          | .error e => .error e
          | .ok rd => .ok rd
  | _ => .ok rd

/-- Ratings step (lines 307-358): `product_data['ratings']` is always set, to the
empty dict when the reviews-and-rating block is absent. -/
def ratingsStep (p : ProductPage) (d : Dict) : Except PyErr Dict :=
  match p.reviewsRating with
  | none => .ok (dictInsert d "ratings" (.obj []))
  | some rr =>
      match ratingsObj p rr with
      | .error e => .error e
      | .ok rd => .ok (dictInsert d "ratings" (.obj rd))

/-- Parse the recent-review section (lines 361-391); the review text is the raw
button text. -/
def parseRecentReview (sec : ReviewSection) : Dict :=
  let r : Dict := []
  let r := match sec.ratingText with
    | none => r
    | some t =>
        dictInsert r "rating"
          (match (pySplitWs (pyStrip t)).head? with
           | none => .null
           | some w =>
               match pyFloat w with
               | some q => .num q
               | none => .null)
  let r := match sec.dateText with
    | none => r
    | some t => dictInsert r "date" (.s (pyStrip t))
  let r := match sec.statusText with
    | none => r
    | some t => dictInsert r "status" (.s (pyStrip t))
  let r := match sec.titleText with
    | none => r
    | some t => dictInsert r "title" (.s (pyStrip t))
  match sec.readMore with
  | none => r
  | some b => dictInsert r "text" (.s (pyStrip b.text))

/-- Recent-review step (lines 360-392): key always set, empty dict when the section
is absent. -/
def recentStep (p : ProductPage) (d : Dict) : Dict :=
  dictInsert d "recent_review"
    (.obj (match p.recentSection with
           | none => []
           | some sec => parseRecentReview sec))

/-- Parse one expanded review section (lines 461-500); the review text prefers the
button's `aria-label` with `'... Read More'` removed, falling back to the stripped
button text with `'Read More'` removed. -/
def parseReviewFull (sec : ReviewSection) : Dict :=
  let r : Dict := []
  let r := match sec.ratingText with
    | none => r
    | some t =>
        dictInsert r "rating"
          (match (pySplitWs (pyStrip t)).head? with
           | none => .null
           | some w =>
               match pyFloat w with
               | some q => .num q
               | none => .null)
  let r := match sec.dateText with
    | none => r
    | some t => dictInsert r "date" (.s (pyStrip t))
  let r := match sec.statusText with
    | none => r
    | some t => dictInsert r "status" (.s (pyStrip t))
  let r := match sec.titleText with
    | none => r
    | some t => dictInsert r "title" (.s (pyStrip t))
  match sec.readMore with
  | none => r
  | some b =>
      if b.ariaLabel ≠ "" then
        dictInsert r "text" (.s (pyRemoveSub b.ariaLabel "... Read More"))
      else
        dictInsert r "text" (.s (pyRemoveSub (pyStrip b.text) "Read More"))

/-- Copy of overall rating / total reviews to the top level inside the Selenium
reviews block (lines 413-431): any raise inside this inner `try` is caught and
logged, so a failed lookup or an empty total-reviews text just loses the remaining
keys. -/
def selOverallPart (sr : SelReviews) (d : Dict) : Dict × List LogEvent :=
  match sr.overallText with
  | none => (d, [LogEvent.overallRatingError])
  | some t =>
      let d := dictInsert d "overall_rating"
        (match pyFloat (pyStrip t) with
         | some q => .num q
         | none => .null)
      match sr.totalText with
      | none => (d, [LogEvent.overallRatingError])
      | some t2 =>
          match (pySplitWs (pyStripChars "()" (pyStrip t2))).head? with
          | none => (d, [LogEvent.overallRatingError])
          | some w =>
              (dictInsert d "total_reviews"
                (match pyInt w with
                 | some n => .int n
                 | none => .null), [])

/-- The list value stored under `all_reviews`: every `section.x5rH4` of the
refreshed source parsed, keeping non-empty review dicts. -/
def allReviewsVal (p : ProductPage) : JVal :=
  .list (((p.reviewSections.map parseReviewFull).filter (fun r => !r.isEmpty)).map .obj)

/-- All-reviews step (lines 394-508): when the Selenium reviews section is present,
first copy overall rating / total reviews to top level, attempt the view-all
expansion, then parse the expanded review sections; `all_reviews` is always set
(empty when the reviews section was absent). -/
def allReviewsStep (p : ProductPage) (d : Dict) : Dict × List LogEvent :=
  match p.selReviews with
  | none => (dictInsert d "all_reviews" (.list []), [LogEvent.noReviewsSection])
  | some sr =>
      let d2 := (selOverallPart sr d).1
      let lg1 := (selOverallPart sr d).2
      let lg2 := if sr.viewAllClickable then [] else [LogEvent.viewAllClickFailed]
      (dictInsert d2 "all_reviews" (allReviewsVal p), lg1 ++ lg2)

/-- Parse one carousel card (lines 518-533 / 546-561): url/title from the anchor,
image source, price text; an absent `href` or `src` attribute raises `KeyError`. -/
def parseCarouselItem (it : CarouselItem) : Except PyErr Dict :=
  let step1 : Except PyErr Dict :=
    match it.a with
    | none => .ok []
    | some a =>
        match a.href with
        | none => .error .keyError
        | some h =>
            let r := dictInsert [] "url" (.s h)
            match a.ariaLabel with
            | some al => .ok (dictInsert r "title" (.s ((pySplitOn al ". £").headD "")))
            | none => .ok (dictInsert r "title" (.s a.title))
  match step1 with
  | .error e => .error e
  | .ok r =>
      let step2 : Except PyErr Dict :=
        match it.imgSrc with
        | none => .ok r
        | some none => .error .keyError
        | some (some u) => .ok (dictInsert r "image" (.s u))
      match step2 with
      | .error e => .error e
      | .ok r =>
          match it.priceText with
          | none => .ok r
          | some t => .ok (dictInsert r "price" (.s (pyStrip t)))

/-- Parse a carousel's cards, keeping the non-empty ones (`if product: append`). -/
def parseCarousel : List CarouselItem → Except PyErr (List Dict)
  | [] => .ok []
  | it :: rest =>
      match parseCarouselItem it with
      | .error e => .error e
      | .ok r =>
          match parseCarousel rest with
          | .error e => .error e
          | .ok rs => .ok (if r.isEmpty then rs else r :: rs)

/-- The nested "People Also Bought" block (lines 540-567): its own `try` means a
raise only loses the `people_also_bought` key. -/
def alsoBoughtBlock (p : ProductPage) (d : Dict) : Dict × List LogEvent :=
  match p.carousel with
  | none => (dictInsert d "people_also_bought" (.list []), [LogEvent.peopleBoughtMissing])
  | some its =>
      match parseCarousel its with
      | .error _ => (d, [LogEvent.foundPeopleBought, LogEvent.peopleBoughtError])
      | .ok ps =>
          (dictInsert d "people_also_bought" (.list (ps.map .obj)),
           [LogEvent.foundPeopleBought, LogEvent.peopleBoughtCount ps.length])

/-- The "You Might Also Like" block with its outer `try` (lines 510-570): a raise
while parsing the cards skips both carousel keys. -/
def alsoLikeBlock (p : ProductPage) (d : Dict) : Dict × List LogEvent :=
  match p.mightLike with
  | none =>
      let d := dictInsert d "people_also_like" (.list [])
      ((alsoBoughtBlock p d).1, [LogEvent.mightLikeMissing] ++ (alsoBoughtBlock p d).2)
  | some its =>
      match parseCarousel its with
      | .error _ => (d, [LogEvent.foundMightLike, LogEvent.mightLikeError])
      | .ok ps =>
          let d := dictInsert d "people_also_like" (.list (ps.map .obj))
          ((alsoBoughtBlock p d).1,
           [LogEvent.foundMightLike, LogEvent.mightLikeCount ps.length] ++ (alsoBoughtBlock p d).2)

/-- Description step (lines 573-575): key set only when a description div exists. -/
def descriptionStep (p : ProductPage) (d : Dict) : Dict :=
  match p.descriptionText with
  | none => d
  | some t => dictInsert d "description" (.s (pyStrip t))

/-- Colors step (lines 577-583): always set, `[color]` or `[]`. -/
def colorsStep (p : ProductPage) (d : Dict) : Dict :=
  dictInsert d "colors"
    (.list (match p.colorDiv with
            | some (some t) => [.s (pyStrip t)]
            | _ => []))

/-- Details step (lines 585-601): bullet texts when `li` items exist, otherwise the
div's own text; always set. -/
def detailsStep (p : ProductPage) (d : Dict) : Dict :=
  dictInsert d "details"
    (.list ((match p.detailsSection with
             | some (some dd) =>
                 if !dd.listItems.isEmpty then dd.listItems.filter (fun t => t ≠ "")
                 else if dd.text ≠ "" then [dd.text]
                 else []
             | _ => []).map .s))

/-- Search for the regex `Product Code:\s*(\d+)` (line 607): find the first
occurrence of the literal followed by optional whitespace and at least one digit. -/
def pcSearch : List Char → Option String
  | [] => none
  | c :: rest =>
      if prefixBool ("Product Code:".data) (c :: rest) then
        let after := ((c :: rest).drop 13).dropWhile Char.isWhitespace
        let ds := after.takeWhile Char.isDigit
        if ds.isEmpty then pcSearch rest else some ⟨ds⟩
      else pcSearch rest

/-- Product-code step (lines 603-610): always set, `null` when the pattern does not
match. -/
def codeStep (p : ProductPage) (d : Dict) : Dict :=
  dictInsert d "product_code"
    (match p.codeText with
     | none => .null
     | some t =>
         match pcSearch (pyStrip t).data with
         | some c => .s c
         | none => .null)

/-- URL of one product image (lines 614-628): first non-empty of `src`, `data-src`,
`data-full-image`; query string dropped and full-resolution parameters appended. -/
def imageUrl (img : ProductImage) : Option String :=
  let full := if img.src ≠ "" then img.src
              else if img.dataSrc ≠ "" then img.dataSrc
              else img.dataFull
  if full = "" then none
  else some (((pySplitOn full "?").headD full) ++ "?$n_960w$&wid=951&fit=constrain")

/-- Images step (lines 611-630): always set. -/
def imagesStep (p : ProductPage) (d : Dict) : Dict :=
  dictInsert d "images" (.list ((p.images.filterMap imageUrl).map .s))

/-- Log events of the price step. -/
def priceLog (p : ProductPage) : List LogEvent :=
  match p.priceText with
  | none => [.priceNotFound]
  | some _ => []

/-- The assembly steps that precede the ratings block, in code order
(price, name, brand, brand details, about me, saved count). -/
def headBuild (p : ProductPage) : Dict :=
  savedStep p (aboutStep p (brandDetailsStep p (brandStep p (nameStep p (priceStep p [])))))

/-- The assembly steps that follow the ratings block, in code order
(recent review, all reviews, carousels, description, colors, details, product code,
images, and finally the url). -/
def tailBuild (url : String) (p : ProductPage) (d : Dict) : Dict :=
  dictInsert
    (imagesStep p (codeStep p (detailsStep p (colorsStep p (descriptionStep p
      ((alsoLikeBlock p ((allReviewsStep p (recentStep p d)).1)).1))))))
    "url" (.s url)

/-- Log events emitted by the post-ratings assembly steps. -/
def buildLogs (p : ProductPage) (d1 : Dict) : List LogEvent :=
  priceLog p ++ (allReviewsStep p (recentStep p d1)).2 ++
    (alsoLikeBlock p ((allReviewsStep p (recentStep p d1)).1)).2

/-- The whole `product_data` assembly (scraper.py lines 252-632), with the log
events emitted on the way.  The only exceptions that can escape are the
`IndexError`s of the rating-bar style parse (and they can only arise after the price
step, so the pre-raise log is `priceLog`). -/
def buildProductData (url : String) (p : ProductPage) :
    Except PyErr (Dict × List LogEvent) :=
  match ratingsStep p (headBuild p) with
  | .error e => .error e
  | .ok d1 => .ok (tailBuild url p d1, buildLogs p d1)

/-- The value `product_data.get('name', 'Unknown')` as logged on success (line 634). -/
def getNameStr (d : Dict) : String :=
  match dictGet d "name" with
  | some (.s n) => n
  | _ => "Unknown"

/-- Failure modes surfaced by `scrape_product`. -/
inductive ScrapeError where
  | botDetection
  | noDetails
deriving DecidableEq

/-- Outcome of one `scrape_product` call: the result, the debug artifacts written
(raw page sources), and the log events emitted. -/
structure ScrapeOutcome where
  result : Except ScrapeError Dict
  debugArtifacts : List String
  logs : List LogEvent

/-- Events emitted before field extraction starts. -/
def preLogs (url : String) (p : ProductPage) : List LogEvent :=
  [.startScrape url] ++ (if p.loadOk then [] else [LogEvent.pageLoadWaitFailed])

/-- The method `AsosScraper.scrape_product` (scraper.py lines 231-645): bot-challenge pages
write a debug artifact and fail fatally; otherwise the record is assembled and
returned only when the `'price'` key resolved, else the page source is persisted and
the call fails; an exception escaping the assembly is caught, logged, and leads to
the same failure.  There is no retry wrapper on this function. -/
def scrapeProduct (url : String) (p : ProductPage) : ScrapeOutcome :=
  if botDetected p.pageSource then
    ⟨.error .botDetection, [p.pageSource],
     preLogs url p ++ [.botDetectionTriggered, .errorScraping url]⟩
  else
    match buildProductData url p with
    | .ok (d, lgs) =>
        if dictHas d "price" then
          ⟨.ok d, [], preLogs url p ++ lgs ++ [.successScraped (getNameStr d)]⟩
        else
          ⟨.error .noDetails, [p.pageSource],
           preLogs url p ++ lgs ++ [.noDetailsError, .errorScraping url]⟩
    | .error _ =>
        ⟨.error .noDetails, [p.pageSource],
         preLogs url p ++ priceLog p ++
           [.seleniumScrapingFailed, .noDetailsError, .errorScraping url]⟩

/-- Per-product driver step (`main.py` lines 101-178): `scrape_product` is invoked
exactly once per link — there is no retry decorator on it and no retry loop at the
call site; an exception is logged and the loop continues with the next link.  The
second component records the number of scrape attempts made for the link. -/
def processLink (p : ProductPage) (url : String) : Except ScrapeError Dict × Nat :=
  ((scrapeProduct url p).result, 1)

/-! ### Key-preservation lemmas for the record assembly -/

theorem priceStep_get (p : ProductPage) (d : Dict) {k : String}
    (h : ("price" : String) ≠ k) : dictGet (priceStep p d) k = dictGet d k := by
  rcases hp : p.priceText with _ | t <;> simp [priceStep, hp, dictGet_insert_ne _ _ h]

theorem nameStep_get (p : ProductPage) (d : Dict) {k : String}
    (h : ("name" : String) ≠ k) : dictGet (nameStep p d) k = dictGet d k := by
  rcases hp : p.h1Text with _ | t <;> simp [nameStep, hp, dictGet_insert_ne _ _ h]

theorem brandStep_get (p : ProductPage) (d : Dict) {k : String}
    (h : ("brand" : String) ≠ k) : dictGet (brandStep p d) k = dictGet d k := by
  rcases hp : p.brandAnchorText with _ | t <;> simp [brandStep, hp, dictGet_insert_ne _ _ h]

theorem brandDetailsStep_get (p : ProductPage) (d : Dict) {k : String}
    (h : ("brand_details" : String) ≠ k) : dictGet (brandDetailsStep p d) k = dictGet d k := by
  simp [brandDetailsStep, dictGet_insert_ne _ _ h]

theorem aboutStep_get (p : ProductPage) (d : Dict) {k : String}
    (h : ("about_me" : String) ≠ k) : dictGet (aboutStep p d) k = dictGet d k := by
  simp [aboutStep, dictGet_insert_ne _ _ h]

theorem savedStep_get (p : ProductPage) (d : Dict) {k : String}
    (h : ("saved_count" : String) ≠ k) : dictGet (savedStep p d) k = dictGet d k := by
  simp [savedStep, dictGet_insert_ne _ _ h]

theorem recentStep_get (p : ProductPage) (d : Dict) {k : String}
    (h : ("recent_review" : String) ≠ k) : dictGet (recentStep p d) k = dictGet d k := by
  simp [recentStep, dictGet_insert_ne _ _ h]

theorem selOverallPart_get (sr : SelReviews) (d : Dict) {k : String}
    (h1 : ("overall_rating" : String) ≠ k) (h2 : ("total_reviews" : String) ≠ k) :
    dictGet (selOverallPart sr d).1 k = dictGet d k := by
  rcases ho : sr.overallText with _ | t
  · simp [selOverallPart, ho]
  · rcases ht : sr.totalText with _ | t2
    · simp [selOverallPart, ho, ht, dictGet_insert_ne _ _ h1]
    · rcases hh : (pySplitWs (pyStripChars "()" (pyStrip t2))).head? with _ | w
      · simp [selOverallPart, ho, ht, hh, dictGet_insert_ne _ _ h1]
      · simp [selOverallPart, ho, ht, hh, dictGet_insert_ne _ _ h1, dictGet_insert_ne _ _ h2]

theorem allReviewsStep_get (p : ProductPage) (d : Dict) {k : String}
    (h1 : ("overall_rating" : String) ≠ k) (h2 : ("total_reviews" : String) ≠ k)
    (h3 : ("all_reviews" : String) ≠ k) :
    dictGet (allReviewsStep p d).1 k = dictGet d k := by
  rcases hp : p.selReviews with _ | sr
  · simp [allReviewsStep, hp, dictGet_insert_ne _ _ h3]
  · simp [allReviewsStep, hp, dictGet_insert_ne _ _ h3, selOverallPart_get sr d h1 h2]

theorem alsoBoughtBlock_get (p : ProductPage) (d : Dict) {k : String}
    (h : ("people_also_bought" : String) ≠ k) :
    dictGet (alsoBoughtBlock p d).1 k = dictGet d k := by
  rcases hp : p.carousel with _ | its
  · simp [alsoBoughtBlock, hp, dictGet_insert_ne _ _ h]
  · rcases hc : parseCarousel its with e | ps
    · simp [alsoBoughtBlock, hp, hc]
    · simp [alsoBoughtBlock, hp, hc, dictGet_insert_ne _ _ h]

theorem alsoLikeBlock_get (p : ProductPage) (d : Dict) {k : String}
    (h1 : ("people_also_like" : String) ≠ k) (h2 : ("people_also_bought" : String) ≠ k) :
    dictGet (alsoLikeBlock p d).1 k = dictGet d k := by
  rcases hp : p.mightLike with _ | its
  · simp [alsoLikeBlock, hp, alsoBoughtBlock_get p _ h2, dictGet_insert_ne _ _ h1]
  · rcases hc : parseCarousel its with e | ps
    · simp [alsoLikeBlock, hp, hc]
    · simp [alsoLikeBlock, hp, hc, alsoBoughtBlock_get p _ h2, dictGet_insert_ne _ _ h1]

theorem descriptionStep_get (p : ProductPage) (d : Dict) {k : String}
    (h : ("description" : String) ≠ k) : dictGet (descriptionStep p d) k = dictGet d k := by
  rcases hp : p.descriptionText with _ | t <;>
    simp [descriptionStep, hp, dictGet_insert_ne _ _ h]

theorem colorsStep_get (p : ProductPage) (d : Dict) {k : String}
    (h : ("colors" : String) ≠ k) : dictGet (colorsStep p d) k = dictGet d k := by
  simp [colorsStep, dictGet_insert_ne _ _ h]

theorem detailsStep_get (p : ProductPage) (d : Dict) {k : String}
    (h : ("details" : String) ≠ k) : dictGet (detailsStep p d) k = dictGet d k := by
  simp [detailsStep, dictGet_insert_ne _ _ h]

theorem codeStep_get (p : ProductPage) (d : Dict) {k : String}
    (h : ("product_code" : String) ≠ k) : dictGet (codeStep p d) k = dictGet d k := by
  simp [codeStep, dictGet_insert_ne _ _ h]

theorem imagesStep_get (p : ProductPage) (d : Dict) {k : String}
    (h : ("images" : String) ≠ k) : dictGet (imagesStep p d) k = dictGet d k := by
  simp [imagesStep, dictGet_insert_ne _ _ h]

theorem ratingsStep_shape (p : ProductPage) (d : Dict) {d1 : Dict}
    (h : ratingsStep p d = .ok d1) :
    ∃ rd, d1 = dictInsert d "ratings" (.obj rd) ∧ (p.reviewsRating = none → rd = []) := by
  unfold ratingsStep at h
  split at h
  · exact ⟨[], by cases h; rfl, fun _ => rfl⟩
  · next rr hp =>
      split at h
      · cases h
      · next rd ho => exact ⟨rd, by cases h; rfl, fun hc => by rw [hp] at hc; cases hc⟩

theorem ratingsStep_get (p : ProductPage) (d : Dict) {d1 : Dict} {k : String}
    (h : ratingsStep p d = .ok d1) (hk : ("ratings" : String) ≠ k) :
    dictGet d1 k = dictGet d k := by
  obtain ⟨rd, rfl, -⟩ := ratingsStep_shape p d h
  exact dictGet_insert_ne _ _ hk

/-- Lookup of any key other than the six head keys passes through `headBuild`. -/
theorem headBuild_get (p : ProductPage) {k : String}
    (h1 : ("price" : String) ≠ k) (h2 : ("name" : String) ≠ k)
    (h3 : ("brand" : String) ≠ k) (h4 : ("brand_details" : String) ≠ k)
    (h5 : ("about_me" : String) ≠ k) (h6 : ("saved_count" : String) ≠ k) :
    dictGet (headBuild p) k = dictGet ([] : Dict) k := by
  unfold headBuild
  rw [savedStep_get p _ h6, aboutStep_get p _ h5, brandDetailsStep_get p _ h4,
      brandStep_get p _ h3, nameStep_get p _ h2, priceStep_get p _ h1]

/-- Lookup of the price key passes through every head step after the price step. -/
theorem headBuild_get_price (p : ProductPage) :
    dictGet (headBuild p) "price" = dictGet (priceStep p []) "price" := by
  unfold headBuild
  rw [savedStep_get p _ (by decide), aboutStep_get p _ (by decide),
      brandDetailsStep_get p _ (by decide), brandStep_get p _ (by decide),
      nameStep_get p _ (by decide)]

theorem headBuild_get_name (p : ProductPage) :
    dictGet (headBuild p) "name" = dictGet (nameStep p (priceStep p [])) "name" := by
  unfold headBuild
  rw [savedStep_get p _ (by decide), aboutStep_get p _ (by decide),
      brandDetailsStep_get p _ (by decide), brandStep_get p _ (by decide)]

theorem headBuild_get_brand (p : ProductPage) :
    dictGet (headBuild p) "brand" =
      dictGet (brandStep p (nameStep p (priceStep p []))) "brand" := by
  unfold headBuild
  rw [savedStep_get p _ (by decide), aboutStep_get p _ (by decide),
      brandDetailsStep_get p _ (by decide)]

/-- Lookup of any key other than the twelve tail keys passes through `tailBuild`. -/
theorem tailBuild_get (url : String) (p : ProductPage) (d : Dict) {k : String}
    (h1 : ("recent_review" : String) ≠ k) (h2 : ("overall_rating" : String) ≠ k)
    (h3 : ("total_reviews" : String) ≠ k) (h4 : ("all_reviews" : String) ≠ k)
    (h5 : ("people_also_like" : String) ≠ k) (h6 : ("people_also_bought" : String) ≠ k)
    (h7 : ("description" : String) ≠ k) (h8 : ("colors" : String) ≠ k)
    (h9 : ("details" : String) ≠ k) (h10 : ("product_code" : String) ≠ k)
    (h11 : ("images" : String) ≠ k) (h12 : ("url" : String) ≠ k) :
    dictGet (tailBuild url p d) k = dictGet d k := by
  unfold tailBuild
  rw [dictGet_insert_ne _ _ h12, imagesStep_get p _ h11, codeStep_get p _ h10,
      detailsStep_get p _ h9, colorsStep_get p _ h8, descriptionStep_get p _ h7,
      alsoLikeBlock_get p _ h5 h6, allReviewsStep_get p _ h2 h3 h4,
      recentStep_get p _ h1]

theorem tailBuild_get_url (url : String) (p : ProductPage) (d : Dict) :
    dictGet (tailBuild url p d) "url" = some (.s url) :=
  dictGet_insert_self _ _ _

theorem tailBuild_get_images (url : String) (p : ProductPage) (d : Dict) :
    dictGet (tailBuild url p d) "images" =
      some (.list ((p.images.filterMap imageUrl).map .s)) := by
  unfold tailBuild
  rw [dictGet_insert_ne _ _ (by decide)]
  simp [imagesStep, dictGet_insert_self]

theorem tailBuild_get_details (url : String) (p : ProductPage) (d : Dict) :
    dictGet (tailBuild url p d) "details" =
      dictGet (detailsStep p (colorsStep p (descriptionStep p
        ((alsoLikeBlock p ((allReviewsStep p (recentStep p d)).1)).1)))) "details" := by
  unfold tailBuild
  rw [dictGet_insert_ne _ _ (by decide), imagesStep_get p _ (by decide),
      codeStep_get p _ (by decide)]

theorem tailBuild_get_colors (url : String) (p : ProductPage) (d : Dict) :
    dictGet (tailBuild url p d) "colors" =
      dictGet (colorsStep p (descriptionStep p
        ((alsoLikeBlock p ((allReviewsStep p (recentStep p d)).1)).1))) "colors" := by
  unfold tailBuild
  rw [dictGet_insert_ne _ _ (by decide), imagesStep_get p _ (by decide),
      codeStep_get p _ (by decide), detailsStep_get p _ (by decide)]

theorem tailBuild_get_allrev (url : String) (p : ProductPage) (d : Dict) :
    dictGet (tailBuild url p d) "all_reviews" =
      dictGet ((allReviewsStep p (recentStep p d)).1) "all_reviews" := by
  unfold tailBuild
  rw [dictGet_insert_ne _ _ (by decide), imagesStep_get p _ (by decide),
      codeStep_get p _ (by decide), detailsStep_get p _ (by decide),
      colorsStep_get p _ (by decide), descriptionStep_get p _ (by decide),
      alsoLikeBlock_get p _ (by decide) (by decide)]

theorem tailBuild_get_recent (url : String) (p : ProductPage) (d : Dict) :
    dictGet (tailBuild url p d) "recent_review" =
      dictGet (recentStep p d) "recent_review" := by
  unfold tailBuild
  rw [dictGet_insert_ne _ _ (by decide), imagesStep_get p _ (by decide),
      codeStep_get p _ (by decide), detailsStep_get p _ (by decide),
      colorsStep_get p _ (by decide), descriptionStep_get p _ (by decide),
      alsoLikeBlock_get p _ (by decide) (by decide),
      allReviewsStep_get p _ (by decide) (by decide) (by decide)]

theorem tailBuild_get_ratings (url : String) (p : ProductPage) (d : Dict) :
    dictGet (tailBuild url p d) "ratings" = dictGet d "ratings" :=
  tailBuild_get url p d (by decide) (by decide) (by decide) (by decide) (by decide)
    (by decide) (by decide) (by decide) (by decide) (by decide) (by decide) (by decide)

theorem allReviewsStep_get_self (p : ProductPage) (d : Dict) :
    dictGet (allReviewsStep p d).1 "all_reviews" =
      some (match p.selReviews with
            | none => .list []
            | some _ => allReviewsVal p) := by
  rcases hp : p.selReviews with _ | sr <;>
    simp [allReviewsStep, hp, dictGet_insert_self]

/-! ## Validity of collected links -/

theorem soupFallback_mem {anchors : List String} {u : String}
    (h : u ∈ soupFallbackLinks anchors) :
    strContains u "asos.com" = true ∧ strContains u "/prd/" = true := by
  obtain ⟨href, -, hrw⟩ := List.mem_filterMap.1 h
  unfold anchorRewrite at hrw
  by_cases hc : (strContains href "asos.com" && strContains href "/prd/") = true
  · rw [if_pos hc] at hrw
    cases hrw
    exact ⟨(Bool.and_eq_true _ _ ▸ hc).1, (Bool.and_eq_true _ _ ▸ hc).2⟩
  · rw [if_neg hc] at hrw
    by_cases hs : strStartsWith href "/prd/" = true
    · rw [if_pos hs] at hrw
      cases hrw
      constructor
      · exact strContains_append_left href (by decide)
      · exact strContains_append_right "https://www.asos.com"
          (strContains_of_startsWith hs)
    · rw [if_neg hs] at hrw
      cases hrw

theorem seleniumLinks_mem {page : CategoryPage} {u : String}
    (h : u ∈ seleniumLinks page) :
    strContains u "asos.com" = true ∧ strContains u "/prd/" = true := by
  obtain ⟨sel, -, hu⟩ := cascadeFirst_mem h
  exact collectFromSelector_mem hu

/-! ## Claim C1 -/

/-- Concrete category page: every Selenium selector finds nothing and the static
markup holds the same relative product link twice. -/
def c1Page : CategoryPage :=
  { currentUrl := "https://www.asos.com/women/dresses/cat/?cid=8799",
    findLinks := fun _ => some [],
    staticAnchors := ["/prd/12345", "/prd/12345"],
    pageSource := "<html><body></body></html>" }

/-- C1 counterexample: on the static-markup fallback return path the function
returns the product list *without* removing duplicates (the fallback returns at
line 201, before the `dict.fromkeys` de-duplication at line 223), refuting the
claim that de-duplication holds on every return path. -/
theorem collect_fallback_duplicates_cex :
    (getProductLinksOnce c1Page).result =
      .ok ["https://www.asos.com/prd/12345", "https://www.asos.com/prd/12345"] ∧
    ¬ (["https://www.asos.com/prd/12345",
        "https://www.asos.com/prd/12345"] : List String).Nodup := by
  exact ⟨rfl, by decide⟩

/-- C1 (amended): whenever `get_product_links` returns, the sequence is non-empty
and every URL contains the site domain and the `/prd/` path pattern; on the main
(selector-cascade) return path the sequence is additionally duplicate-free and
order-preserving (a sublist of the harvested links), but the static-markup fallback
path does not de-duplicate. -/
theorem collect_valid_links (page : CategoryPage) (links : List String)
    (h : (getProductLinksOnce page).result = .ok links) :
    links ≠ [] ∧
    (∀ u ∈ links, strContains u "asos.com" = true ∧ strContains u "/prd/" = true) ∧
    (seleniumLinks page ≠ [] →
       links = dedupKeepFirst (seleniumLinks page) ∧ links.Nodup ∧
       links.Sublist (seleniumLinks page)) := by
  unfold getProductLinksOnce at h
  split_ifs at h with hd hs hf
  · have hlinks : links = soupFallbackLinks page.staticAnchors := by
      cases h; rfl
    subst hlinks
    refine ⟨?_, ?_, ?_⟩
    · intro hnil
      rw [hnil] at hf
      simp at hf
    · intro u hu
      exact soupFallback_mem hu
    · intro hne
      rw [List.isEmpty_iff] at hs
      exact absurd hs hne
  · have hlinks : links = dedupKeepFirst (seleniumLinks page) := by
      cases h; rfl
    subst hlinks
    refine ⟨?_, ?_, ?_⟩
    · apply dedupKeepFirst_ne_nil
      intro hnil
      rw [hnil] at hs
      simp at hs
    · intro u hu
      exact seleniumLinks_mem ((dedupKeepFirst_mem _ _).1 hu)
    · intro _
      exact ⟨rfl, dedupKeepFirst_nodup _, dedupKeepFirst_sublist _⟩

/-- Concrete category page whose first cascade selector harvests one valid link. -/
def c7Good : CategoryPage :=
  { currentUrl := "https://www.asos.com/women/cat/?cid=1",
    findLinks := fun s =>
      if s = "a[href*=\"/prd/\"]" then some [some "https://www.asos.com/prd/42"]
      else some [],
    staticAnchors := [],
    pageSource := "<html></html>" }

/-- Witness for C1 at a concrete page. -/
theorem collect_valid_links_witness :
    (getProductLinksOnce c7Good).result = .ok ["https://www.asos.com/prd/42"] ∧
    (["https://www.asos.com/prd/42"] : List String) ≠ [] ∧
    (∀ u ∈ (["https://www.asos.com/prd/42"] : List String),
       strContains u "asos.com" = true ∧ strContains u "/prd/" = true) := by
  have h := collect_valid_links c7Good ["https://www.asos.com/prd/42"] rfl
  exact ⟨rfl, h.1, h.2.1⟩

/-! ## Claim C3 -/

/-- C3: the selector cascade evaluates strategies strictly in declared order and
returns the harvest of the first strategy whose output is non-empty, never a later
one; a strategy whose lookup raises is treated as "no match" and the cascade
proceeds. -/
theorem cascade_first_nonempty_wins (page : CategoryPage)
    (pre post : List String) (sel : String)
    (hpre : ∀ s ∈ pre, page.findLinks s = none ∨ collectFromSelector page s = [])
    (hsel : collectFromSelector page sel ≠ []) :
    cascadeFirst page (pre ++ sel :: post) = collectFromSelector page sel ∧
    (∀ s, page.findLinks s = none → collectFromSelector page s = []) := by
  constructor
  · revert hpre
    induction pre with
    | nil =>
        intro _
        rw [List.nil_append]
        simp only [cascadeFirst]
        rw [if_neg (by simp [List.isEmpty_iff, hsel])]
    | cons s rest ih =>
        intro hpre
        have hempty : collectFromSelector page s = [] := by
          rcases hpre s (List.mem_cons_self _ _) with h | h
          · simp [collectFromSelector, h]
          · exact h
        rw [List.cons_append]
        simp only [cascadeFirst]
        rw [if_pos (by simp [hempty])]
        exact ih (fun s' hs' => hpre s' (List.mem_cons_of_mem _ hs'))
  · intro s h
    simp [collectFromSelector, h]

/-- Concrete page for the cascade: the first selector raises, the second harvests a
link, the third would also harvest one but is never consulted. -/
def c3Page : CategoryPage :=
  { currentUrl := "https://www.asos.com/men/cat/?cid=2",
    findLinks := fun s =>
      if s = "sel-raises" then none
      else if s = "sel-good" then some [some "https://www.asos.com/prd/7"]
      else if s = "sel-later" then some [some "https://www.asos.com/prd/8"]
      else some [],
    staticAnchors := [],
    pageSource := "<html></html>" }

/-- Witness for C3 at a concrete page. -/
theorem cascade_first_nonempty_wins_witness :
    cascadeFirst c3Page (["sel-raises"] ++ "sel-good" :: ["sel-later"]) =
      collectFromSelector c3Page "sel-good" ∧
    (∀ s, c3Page.findLinks s = none → collectFromSelector c3Page s = []) := by
  exact cascade_first_nonempty_wins c3Page ["sel-raises"] ["sel-later"] "sel-good"
    (by intro s hs
        have hse : s = "sel-raises" := by simpa using hs
        subst hse
        left
        rfl)
    (by decide)

/-! ## Claim C9 -/

/-- C9: link collection over a static page is deterministic — two runs of the
collection (and de-duplication) over the same document yield identical sequences. -/
theorem collect_deterministic (p q : CategoryPage) (h : p = q) :
    (getProductLinksOnce p).result = (getProductLinksOnce q).result ∧
    getProductLinksOnce p = getProductLinksOnce q := by
  subst h
  exact ⟨rfl, rfl⟩

/-- Witness for C9 at a concrete page. -/
theorem collect_deterministic_witness :
    (getProductLinksOnce c7Good).result = (getProductLinksOnce c7Good).result ∧
    getProductLinksOnce c7Good = getProductLinksOnce c7Good :=
  collect_deterministic c7Good c7Good rfl

/-! ## Claim C8 -/

/-- C8 counterexample: a relative href matching the product pattern but containing
the substring `'asos.com'` satisfies the first (absolute-link) test and is kept
verbatim — it is NOT rewritten to an absolute URL, refuting the universal
domain-prefix law. -/
theorem relative_link_kept_relative_cex :
    soupFallbackLinks ["/prd/2024-asos.com-capsule"] = ["/prd/2024-asos.com-capsule"] ∧
    strStartsWith "/prd/2024-asos.com-capsule" "/prd/" = true ∧
    "/prd/2024-asos.com-capsule" ≠ "https://www.asos.com/prd/2024-asos.com-capsule" := by
  exact ⟨rfl, rfl, by decide⟩

/-- C8 (amended): a relative href starting with `'/prd/'` that does not contain the
substring `'asos.com'` is rewritten by prefixing the base origin; an href containing
both `'asos.com'` and `'/prd/'` is kept unchanged (even if it is in fact relative,
as the counterexample shows). -/
theorem fallback_rewrite_laws (href : String) :
    (strStartsWith href "/prd/" = true → strContains href "asos.com" = false →
       soupFallbackLinks [href] = ["https://www.asos.com" ++ href]) ∧
    (strContains href "asos.com" = true → strContains href "/prd/" = true →
       soupFallbackLinks [href] = [href]) := by
  constructor
  · intro hs hc
    simp [soupFallbackLinks, anchorRewrite, hc, hs]
  · intro hc hp
    simp [soupFallbackLinks, anchorRewrite, hc, hp]

/-- Witness for C8 on the spec's own example `"/prd/12345"` and an absolute
on-domain link. -/
theorem fallback_rewrite_laws_witness :
    soupFallbackLinks ["/prd/12345"] = ["https://www.asos.com/prd/12345"] ∧
    soupFallbackLinks ["https://www.asos.com/prd/99"] = ["https://www.asos.com/prd/99"] := by
  exact ⟨(fallback_rewrite_laws "/prd/12345").1 rfl rfl,
         (fallback_rewrite_laws "https://www.asos.com/prd/99").2 rfl rfl⟩

/-! ## Claim C5 -/

/-- C5 counterexample: a price string on which float conversion fails is stored
*after* the currency-symbol stripping, not verbatim: `"£TBC"` is recorded as
`"TBC"`. -/
theorem price_unparsable_cleaned_cex :
    parsePrice "£TBC" = .s "TBC" ∧ "TBC" ≠ "£TBC" := by
  exact ⟨rfl, by decide⟩

/-- C5 (amended): `"£85.00"` converts to the number `85.00` and `"£1,234.50"` to
`1234.50` (currency symbol and thousands separator stripped before conversion); a
string on which conversion fails is preserved in the record's price field as the
*cleaned* string (symbols stripped), not the verbatim original. -/
theorem price_parse_spec :
    parsePrice "£85.00" = .num 85 ∧
    parsePrice "£1,234.50" = .num (2469 / 2 : ℚ) ∧
    (∀ raw, pyFloat (removeChar ',' (removeChar '£' (pyStrip raw))) = none →
       parsePrice raw = .s (removeChar ',' (removeChar '£' (pyStrip raw)))) := by
  refine ⟨?_, ?_, ?_⟩
  · have h : pyFloat (removeChar ',' (removeChar '£' (pyStrip "£85.00"))) =
        some ((digitsToNat ['8', '5'] : ℚ) +
          (digitsToNat ['0', '0'] : ℚ) / (10 : ℚ) ^ 2) := rfl
    rw [show digitsToNat ['8', '5'] = 85 from by decide,
        show digitsToNat ['0', '0'] = 0 from by decide] at h
    have h85 : pyFloat (removeChar ',' (removeChar '£' (pyStrip "£85.00"))) = some 85 := by
      rw [h]; norm_num
    simp [parsePrice, h85]
  · have h : pyFloat (removeChar ',' (removeChar '£' (pyStrip "£1,234.50"))) =
        some ((digitsToNat ['1', '2', '3', '4'] : ℚ) +
          (digitsToNat ['5', '0'] : ℚ) / (10 : ℚ) ^ 2) := rfl
    rw [show digitsToNat ['1', '2', '3', '4'] = 1234 from by decide,
        show digitsToNat ['5', '0'] = 50 from by decide] at h
    have hq : pyFloat (removeChar ',' (removeChar '£' (pyStrip "£1,234.50"))) =
        some (2469 / 2 : ℚ) := by
      rw [h]; norm_num
    simp [parsePrice, hq]
  · intro raw h
    simp [parsePrice, h]

/-- Witness for C5's conditional clause at a concrete unparsable price. -/
theorem price_parse_spec_witness :
    pyFloat (removeChar ',' (removeChar '£' (pyStrip "£N/A"))) = none ∧
    parsePrice "£N/A" = .s (removeChar ',' (removeChar '£' (pyStrip "£N/A"))) := by
  exact ⟨rfl, price_parse_spec.2.2 "£N/A" rfl⟩

/-! ## Claim C6 -/

/-- Concrete off-domain state: every attempt lands on a non-ASOS URL. -/
def c6Page : CategoryPage :=
  { currentUrl := "https://www.google.com/blocked/index",
    findLinks := fun _ => some [],
    staticAnchors := [],
    pageSource := "<html>blocked</html>" }

/-- C6 counterexample: an off-domain redirect is NOT fatal for the retry policy —
the tenacity decorator retries the raised exception like any other, so the
operation is attempted 3 times, not aborted after a single attempt. -/
theorem redirect_retried_cex :
    (getProductLinksRetried (fun _ => c6Page)).result = .error .redirected ∧
    (getProductLinksRetried (fun _ => c6Page)).attempts = 3 ∧
    ¬ (getProductLinksRetried (fun _ => c6Page)).attempts = 1 := by
  refine ⟨rfl, rfl, by decide⟩

/-- C6 (amended): an off-domain redirect makes each attempt fail with a redirect
error, but the retry decorator re-attempts it like any retryable failure, up to the
3-attempt ceiling; it is not classified fatal / single-attempt. -/
theorem redirect_retried_three_attempts (pages : Nat → CategoryPage)
    (h : ∀ n, strContains (pages n).currentUrl "asos.com" = false) :
    (getProductLinksRetried pages).result = .error .redirected ∧
    (getProductLinksRetried pages).attempts = 3 := by
  have h1 : ∀ n, (getProductLinksOnce (pages n)).result = .error .redirected := by
    intro n
    unfold getProductLinksOnce
    rw [if_pos (h n)]
  constructor <;> simp [getProductLinksRetried, retryGo, h1 1, h1 2, h1 3]

/-- Witness for C6 (amended) at the concrete off-domain state. -/
theorem redirect_retried_three_attempts_witness :
    (getProductLinksRetried (fun _ => c6Page)).result = .error .redirected ∧
    (getProductLinksRetried (fun _ => c6Page)).attempts = 3 :=
  redirect_retried_three_attempts (fun _ => c6Page) (fun _ => rfl)

/-! ## Claim C7 -/

/-- C7: the retry policy makes at most 3 attempts; an operation failing on the
first two attempts and succeeding on the third returns the success result after
exactly 3 attempts, with delays matching the exponential formula, equal to the
clamped values `[4, 4]`, non-decreasing, and within the `[4, 10]` floor/ceiling;
moreover the unclamped exponential delay formula is monotone. -/
theorem retry_two_failures_then_success (pages : Nat → CategoryPage)
    (links : List String) (e1 e2 : LinkError)
    (h1 : (getProductLinksOnce (pages 1)).result = .error e1)
    (h2 : (getProductLinksOnce (pages 2)).result = .error e2)
    (h3 : (getProductLinksOnce (pages 3)).result = .ok links) :
    (getProductLinksRetried pages).result = .ok links ∧
    (getProductLinksRetried pages).attempts = 3 ∧
    (getProductLinksRetried pages).delays =
      [waitExponential 1 4 10 1, waitExponential 1 4 10 2] ∧
    (getProductLinksRetried pages).delays = [4, 4] ∧
    List.Chain' (· ≤ ·) (getProductLinksRetried pages).delays ∧
    (∀ dly ∈ (getProductLinksRetried pages).delays, 4 ≤ dly ∧ dly ≤ 10) ∧
    (∀ q : Nat → CategoryPage, (getProductLinksRetried q).attempts ≤ 3) ∧
    (∀ n : Nat, waitExponential 1 4 10 n ≤ waitExponential 1 4 10 (n + 1)) := by
  have w1 : waitExponential 1 4 10 1 = 4 := by
    unfold waitExponential
    rw [show ((1 : ℚ) * 2 ^ 1) = 2 by norm_num,
        min_eq_left (by norm_num : (2 : ℚ) ≤ 10),
        max_eq_right (by norm_num : (0 : ℚ) ≤ 4)]
    exact max_eq_left (by norm_num)
  have w2 : waitExponential 1 4 10 2 = 4 := by
    unfold waitExponential
    rw [show ((1 : ℚ) * 2 ^ 2) = 4 by norm_num,
        min_eq_left (by norm_num : (4 : ℚ) ≤ 10),
        max_eq_right (by norm_num : (0 : ℚ) ≤ 4)]
    exact max_eq_left (by norm_num)
  have key : getProductLinksRetried pages =
      ⟨.ok links, 3, [waitExponential 1 4 10 1, waitExponential 1 4 10 2]⟩ := by
    simp [getProductLinksRetried, retryGo, h1, h2, h3]
  refine ⟨by rw [key], by rw [key], by rw [key], ?_, ?_, ?_, ?_, ?_⟩
  · rw [key, w1, w2]
  · rw [key, w1, w2]
    exact List.chain'_cons.2 ⟨le_refl (4 : ℚ), List.chain'_singleton _⟩
  · rw [key, w1, w2]
    intro dly hd
    have h4 : dly = 4 := by
      rcases List.mem_cons.1 hd with hc | hc
      · exact hc
      · simpa using hc
    rw [h4]
    exact ⟨le_refl _, by norm_num⟩
  · intro q
    show (retryGo _ _ 1 3).attempts ≤ 3
    rcases hq1 : (getProductLinksOnce (q 1)).result with e | a
    · rcases hq2 : (getProductLinksOnce (q 2)).result with e2' | a2
      · simp [retryGo, hq1, hq2]
      · simp [retryGo, hq1, hq2]
    · simp [retryGo, hq1]
  · intro n
    unfold waitExponential
    refine max_le_max le_rfl (min_le_min ?_ le_rfl)
    rw [one_mul, one_mul]
    exact pow_le_pow_right₀ one_le_two (Nat.le_succ n)

/-- Strategy state for C7's witness: off-domain on attempts 1 and 2, a good page
from attempt 3 on. -/
def c7Pages : Nat → CategoryPage := fun n => if 3 ≤ n then c7Good else c6Page

/-- Witness for C7 at the concrete fail-fail-succeed strategy. -/
theorem retry_two_failures_then_success_witness :
    (getProductLinksOnce (c7Pages 1)).result = .error .redirected ∧
    (getProductLinksOnce (c7Pages 2)).result = .error .redirected ∧
    (getProductLinksOnce (c7Pages 3)).result = .ok ["https://www.asos.com/prd/42"] ∧
    (getProductLinksRetried c7Pages).result = .ok ["https://www.asos.com/prd/42"] ∧
    (getProductLinksRetried c7Pages).attempts = 3 ∧
    (getProductLinksRetried c7Pages).delays = [4, 4] := by
  have h := retry_two_failures_then_success c7Pages ["https://www.asos.com/prd/42"]
    .redirected .redirected rfl rfl rfl
  exact ⟨rfl, rfl, rfl, h.1, h.2.1, h.2.2.2.1⟩

/-! ## Structure of a successfully assembled record -/

theorem build_ok_elim {url : String} {p : ProductPage} {d : Dict} {lgs : List LogEvent}
    (h : buildProductData url p = .ok (d, lgs)) :
    ∃ d1, ratingsStep p (headBuild p) = .ok d1 ∧ d = tailBuild url p d1 := by
  unfold buildProductData at h
  split at h
  · cases h
  · next d1 hr =>
      refine ⟨d1, hr, ?_⟩
      injection h with h2
      exact (congrArg Prod.fst h2).symm

theorem build_get_price {url : String} {p : ProductPage} {d : Dict} {lgs : List LogEvent}
    (h : buildProductData url p = .ok (d, lgs)) :
    dictGet d "price" = dictGet (priceStep p []) "price" := by
  obtain ⟨d1, hr, rfl⟩ := build_ok_elim h
  rw [tailBuild_get url p d1 (by decide) (by decide) (by decide) (by decide) (by decide)
        (by decide) (by decide) (by decide) (by decide) (by decide) (by decide) (by decide),
      ratingsStep_get p _ hr (by decide), headBuild_get_price]

theorem build_get_name {url : String} {p : ProductPage} {d : Dict} {lgs : List LogEvent}
    (h : buildProductData url p = .ok (d, lgs)) {nm : String}
    (hn : p.h1Text = some nm) : dictGet d "name" = some (.s (pyStrip nm)) := by
  obtain ⟨d1, hr, rfl⟩ := build_ok_elim h
  rw [tailBuild_get url p d1 (by decide) (by decide) (by decide) (by decide) (by decide)
        (by decide) (by decide) (by decide) (by decide) (by decide) (by decide) (by decide),
      ratingsStep_get p _ hr (by decide), headBuild_get_name]
  simp [nameStep, hn, dictGet_insert_self]

theorem build_get_brand {url : String} {p : ProductPage} {d : Dict} {lgs : List LogEvent}
    (h : buildProductData url p = .ok (d, lgs)) {bn : String}
    (hb : p.brandAnchorText = some bn) : dictGet d "brand" = some (.s (pyStrip bn)) := by
  obtain ⟨d1, hr, rfl⟩ := build_ok_elim h
  rw [tailBuild_get url p d1 (by decide) (by decide) (by decide) (by decide) (by decide)
        (by decide) (by decide) (by decide) (by decide) (by decide) (by decide) (by decide),
      ratingsStep_get p _ hr (by decide), headBuild_get_brand]
  simp [brandStep, hb, dictGet_insert_self]

theorem build_ok_of_no_ratings (url : String) {p : ProductPage}
    (hrr : p.reviewsRating = none) :
    buildProductData url p =
      .ok (tailBuild url p (dictInsert (headBuild p) "ratings" (.obj [])),
           buildLogs p (dictInsert (headBuild p) "ratings" (.obj []))) := by
  unfold buildProductData
  have hr : ratingsStep p (headBuild p) =
      .ok (dictInsert (headBuild p) "ratings" (.obj [])) := by
    unfold ratingsStep
    rw [hrr]
  rw [hr]

/-! ## Claim C2 -/

/-- A product page on which no query finds anything. -/
def blankPage : ProductPage :=
  { pageSource := "<html><body>product page</body></html>", loadOk := true,
    priceText := none, h1Text := none, brandAnchorText := none, brandSection := none,
    aboutSection := none, savedDiv := none, reviewsRating := none, recommendText := none,
    ratingBars := [], recentSection := none, selReviews := none, reviewSections := [],
    mightLike := none, carousel := none, descriptionText := none, colorDiv := none,
    detailsSection := none, codeText := none, images := [] }

/-- A page with name and brand present but no price element. -/
def c2Page : ProductPage :=
  { blankPage with h1Text := some "PARTIALNAME", brandAnchorText := some "PARTIALBRAND" }

/-- C2 counterexample: on a page with name and brand but no price, the fields are
resolved into the intermediate record, the call fails — but the partial fields are
NOT surfaced: nothing is returned, and no emitted log event carries the resolved
name or brand value. -/
theorem scrape_resolved_fields_discarded_cex :
    (∃ d lgs, buildProductData "https://www.asos.com/prd/777" c2Page = .ok (d, lgs) ∧
       dictGet d "name" = some (.s "PARTIALNAME") ∧
       dictGet d "brand" = some (.s "PARTIALBRAND")) ∧
    (scrapeProduct "https://www.asos.com/prd/777" c2Page).result = .error .noDetails ∧
    ((scrapeProduct "https://www.asos.com/prd/777" c2Page).logs.all
       (fun e => !(logMentions e "PARTIALNAME") && !(logMentions e "PARTIALBRAND")))
      = true := by
  exact ⟨⟨_, _, rfl, rfl, rfl⟩, rfl, rfl⟩

/-- C2 (amended): price is the success gate — with no resolvable price the call
fails with an error and only persists the raw markup; the partial fields (name,
brand) are resolved into the intermediate record but discarded on failure.
Conversely, when the price resolved (and the ratings block, whose malformed style
attributes are the only source of uncaught exceptions, is absent) a record is
returned even though every other field is null or empty. -/
theorem scrape_price_gate (url : String) (p : ProductPage)
    (hb : botDetected p.pageSource = false) :
    (p.priceText = none →
       (scrapeProduct url p).result = .error .noDetails ∧
       (scrapeProduct url p).debugArtifacts = [p.pageSource]) ∧
    (∀ d lgs, buildProductData url p = .ok (d, lgs) →
       (∀ nm, p.h1Text = some nm → dictGet d "name" = some (.s (pyStrip nm))) ∧
       (∀ bn, p.brandAnchorText = some bn → dictGet d "brand" = some (.s (pyStrip bn)))) ∧
    (∀ t, p.priceText = some t → p.reviewsRating = none →
       ∃ d, (scrapeProduct url p).result = .ok d ∧
         dictGet d "price" = some (parsePrice t)) := by
  refine ⟨?_, ?_, ?_⟩
  · intro hp
    rcases hbl : buildProductData url p with e | pair
    · constructor <;> simp [scrapeProduct, hb, hbl]
    · obtain ⟨d, lgs⟩ := pair
      have hgd : dictGet d "price" = none := by
        rw [build_get_price hbl]
        simp [priceStep, hp, dictGet]
      have hhas : dictHas d "price" = false := by
        rcases hd : dictHas d "price"
        · rfl
        · obtain ⟨v, hv⟩ := (dictHas_iff_get d "price").1 hd
          rw [hgd] at hv
          cases hv
      constructor <;> simp [scrapeProduct, hb, hbl, hhas]
  · intro d lgs hbl
    exact ⟨fun nm hn => build_get_name hbl hn, fun bn hbn => build_get_brand hbl hbn⟩
  · intro t hp hrr
    have hbl := build_ok_of_no_ratings url hrr
    have hget : dictGet (tailBuild url p (dictInsert (headBuild p) "ratings" (.obj [])))
        "price" = some (parsePrice t) := by
      rw [build_get_price hbl]
      simp [priceStep, hp, dictGet_insert_self]
    have hhas := (dictHas_iff_get _ _).2 ⟨_, hget⟩
    exact ⟨_, by simp [scrapeProduct, hb, hbl, hhas], hget⟩

/-- A page whose only resolvable field is the price. -/
def c2wPage : ProductPage := { blankPage with priceText := some "£85.00" }

/-- Witness for C2 (amended): a price-only page yields a record; a price-less page
fails. -/
theorem scrape_price_gate_witness :
    (∃ d, (scrapeProduct "https://www.asos.com/prd/1" c2wPage).result = .ok d ∧
       dictGet d "price" = some (parsePrice "£85.00")) ∧
    (scrapeProduct "https://www.asos.com/prd/778" c2Page).result = .error .noDetails := by
  refine ⟨(scrape_price_gate _ c2wPage rfl).2.2 "£85.00" rfl rfl, ?_⟩
  exact ((scrape_price_gate _ c2Page rfl).1 rfl).1

/-! ## Claim C4 -/

/-- C4: a page whose text contains a bot-challenge phrase makes `scrape_product`
write the raw markup as a debug artifact and fail fatally; no record is returned,
and the driver makes no retry — the product is attempted exactly once. -/
theorem scrape_bot_challenge_fatal (url : String) (p : ProductPage)
    (h : strContains (pyLower p.pageSource) "verify you are human" = true) :
    (scrapeProduct url p).result = .error .botDetection ∧
    (scrapeProduct url p).debugArtifacts = [p.pageSource] ∧
    (∀ d : Dict, (scrapeProduct url p).result ≠ .ok d) ∧
    processLink p url = ((.error .botDetection : Except ScrapeError Dict), 1) := by
  have hb : botDetected p.pageSource = true := by
    unfold botDetected
    rw [h]
    simp
  refine ⟨?_, ?_, ?_, ?_⟩
  · simp [scrapeProduct, hb]
  · simp [scrapeProduct, hb]
  · intro d
    simp [scrapeProduct, hb]
  · simp [processLink, scrapeProduct, hb]

/-- A product page served as a bot challenge. -/
def c4Page : ProductPage :=
  { blankPage with
    pageSource := "<html>We need to Verify You Are Human before continuing.</html>" }

/-- Witness for C4 at the concrete challenge page. -/
theorem scrape_bot_challenge_fatal_witness :
    strContains (pyLower c4Page.pageSource) "verify you are human" = true ∧
    (scrapeProduct "https://www.asos.com/prd/3" c4Page).result = .error .botDetection ∧
    (scrapeProduct "https://www.asos.com/prd/3" c4Page).debugArtifacts =
      [c4Page.pageSource] ∧
    processLink c4Page "https://www.asos.com/prd/3" =
      ((.error .botDetection : Except ScrapeError Dict), 1) := by
  have h := scrape_bot_challenge_fatal "https://www.asos.com/prd/3" c4Page rfl
  exact ⟨rfl, h.1, h.2.1, h.2.2.2⟩

/-! ## Claim C10 -/

/-- C10: every record returned by `scrape_product` has its `url` field equal to the
requested URL, contains a `price` key, and always contains the keys `ratings`,
`recent_review`, `all_reviews`, `images`, `details` and `colors`, each defaulting
to an empty dict or list when the corresponding page section is absent. -/
theorem scrape_record_invariants (url : String) (p : ProductPage) (d : Dict)
    (h : (scrapeProduct url p).result = .ok d) :
    dictGet d "url" = some (.s url) ∧
    dictHas d "price" = true ∧
    dictHas d "ratings" = true ∧
    dictHas d "recent_review" = true ∧
    dictHas d "all_reviews" = true ∧
    dictHas d "images" = true ∧
    dictHas d "details" = true ∧
    dictHas d "colors" = true ∧
    (p.reviewsRating = none → dictGet d "ratings" = some (.obj [])) ∧
    (p.recentSection = none → dictGet d "recent_review" = some (.obj [])) ∧
    (p.selReviews = none → dictGet d "all_reviews" = some (.list [])) ∧
    (p.images = [] → dictGet d "images" = some (.list [])) ∧
    (p.detailsSection = none → dictGet d "details" = some (.list [])) ∧
    (p.colorDiv = none → dictGet d "colors" = some (.list [])) := by
  by_cases hbot : botDetected p.pageSource = true
  · simp [scrapeProduct, hbot] at h
  · simp only [Bool.not_eq_true] at hbot
    rcases hbl : buildProductData url p with e | pair
    · simp [scrapeProduct, hbot, hbl] at h
    · obtain ⟨d0, lgs⟩ := pair
      rcases hhas : dictHas d0 "price"
      · simp [scrapeProduct, hbot, hbl, hhas] at h
      · have hd : d0 = d := by
          simp [scrapeProduct, hbot, hbl, hhas] at h
          exact h
        subst hd
        obtain ⟨d1, hr, rfl⟩ := build_ok_elim hbl
        obtain ⟨rd, hd1eq, hdef⟩ := ratingsStep_shape p _ hr
        refine ⟨tailBuild_get_url url p d1, hhas, ?_, ?_, ?_, ?_, ?_, ?_,
          ?_, ?_, ?_, ?_, ?_, ?_⟩
        · exact (dictHas_iff_get _ _).2
            ⟨_, by rw [tailBuild_get_ratings, hd1eq]; exact dictGet_insert_self _ _ _⟩
        · exact (dictHas_iff_get _ _).2
            ⟨_, by rw [tailBuild_get_recent]; exact dictGet_insert_self _ _ _⟩
        · exact (dictHas_iff_get _ _).2
            ⟨_, by rw [tailBuild_get_allrev, allReviewsStep_get_self]⟩
        · exact (dictHas_iff_get _ _).2 ⟨_, tailBuild_get_images url p d1⟩
        · exact (dictHas_iff_get _ _).2
            ⟨_, by rw [tailBuild_get_details]; exact dictGet_insert_self _ _ _⟩
        · exact (dictHas_iff_get _ _).2
            ⟨_, by rw [tailBuild_get_colors]; exact dictGet_insert_self _ _ _⟩
        · intro hrr
          rw [tailBuild_get_ratings, hd1eq, dictGet_insert_self, hdef hrr]
        · intro hrc
          rw [tailBuild_get_recent]
          simp [recentStep, hrc, dictGet_insert_self]
        · intro hsel
          rw [tailBuild_get_allrev, allReviewsStep_get_self]
          simp [hsel]
        · intro him
          rw [tailBuild_get_images, him]
          simp
        · intro hds
          rw [tailBuild_get_details]
          simp [detailsStep, hds, dictGet_insert_self]
        · intro hcd
          rw [tailBuild_get_colors]
          simp [colorsStep, hcd, dictGet_insert_self]

/-- Witness for C10 at a concrete price-only page. -/
theorem scrape_record_invariants_witness :
    ∃ d, (scrapeProduct "https://www.asos.com/prd/5" c2wPage).result = .ok d ∧
      dictGet d "url" = some (.s "https://www.asos.com/prd/5") ∧
      dictHas d "price" = true ∧
      dictGet d "ratings" = some (.obj []) ∧
      dictGet d "recent_review" = some (.obj []) ∧
      dictGet d "all_reviews" = some (.list []) ∧
      dictGet d "images" = some (.list []) ∧
      dictGet d "details" = some (.list []) ∧
      dictGet d "colors" = some (.list []) := by
  obtain ⟨d, hd⟩ : ∃ d, (scrapeProduct "https://www.asos.com/prd/5" c2wPage).result = .ok d :=
    ⟨_, rfl⟩
  have h := scrape_record_invariants "https://www.asos.com/prd/5" c2wPage d hd
  exact ⟨d, hd, h.1, h.2.1, h.2.2.2.2.2.2.2.2.1 rfl, h.2.2.2.2.2.2.2.2.2.1 rfl,
    h.2.2.2.2.2.2.2.2.2.2.1 rfl, h.2.2.2.2.2.2.2.2.2.2.2.1 rfl,
    h.2.2.2.2.2.2.2.2.2.2.2.2.1 rfl, h.2.2.2.2.2.2.2.2.2.2.2.2.2 rfl⟩

end FashionScraper
